import Mathlib

/-!
Verification of the astro3d image-to-heightfield pipeline.

Shallow embedding of the array-transform code in
`astro3d/utils/model3d.py`, `astro3d/utils/imageprep.py` and
`astro3d/image_utils.py`.  Images are 2D rational arrays
(`List (List ℚ)`), row-major, matching numpy's `(ny, nx)` layout;
flattened 1D views (`List ℚ`) are used where the source operates purely
elementwise with global reductions.  Machine floats are modelled as exact
rationals; the floating square root used by `numpy.std` is modelled by a
fixed-precision rational Newton iteration (the claims proved here do not
depend on its rounding).
-/

/- Batteries marks the `Rat` arithmetic `@[irreducible]`; re-open it so
concrete instances of the embedded code evaluate under `decide`/`rfl`
(the kernel is unaffected by reducibility attributes). -/
unseal Rat.add Rat.mul Rat.inv Rat.sub

namespace Astro3D

/-- A 2D image: list of rows of rational pixel values. -/
abbrev Img : Type := List (List ℚ)

/-- A 2D boolean mask. -/
abbrev Mask : Type := List (List Bool)

/-- Pixel access with default 0 (out of range reads 0). -/
def cell (img : Img) (i j : Nat) : ℚ := (img.getD i []).getD j 0

/-- Mask access with default `false`. -/
def mcell (m : Mask) (i j : Nat) : Bool := (m.getD i []).getD j false

/-- Two nested lists have the same row structure. -/
def sameShape (a b : List (List α)) : Prop :=
  a.map List.length = b.map List.length

instance {a b : List (List α)} : Decidable (sameShape a b) := by
  unfold sameShape; infer_instance

/-- The `(ny, nx)` shape of an image (numpy convention). -/
def shape2 (img : List (List α)) : Nat × Nat :=
  (img.length, (img.headD []).length)

/-! ### `Model3D.resize` (src/astro3d/utils/model3d.py, lines 53-55 and 94-125) -/

/-- `Model3D._MIN_NPIXELS` (900 x 900). -/
def MIN_NPIXELS : Nat := 810000

/-- `Model3D._MAX_NPIXELS` (1300 x 1300). -/
def MAX_NPIXELS : Nat := 1690000

/-- `Model3D._RESIZE_AXIS_LEN`. -/
def RESIZE_AXIS_LEN : Nat := 1000

/-- Shape transform of `Model3D.resize`: for an input of shape `(ny, nx)`,
returns the output shape `(ny_new, nx_new)`.  Embeds the source exactly:
when the pixel count is outside `[_MIN_NPIXELS, _MAX_NPIXELS]`, the branch
`nx <= ny` sets `nx_new = _RESIZE_AXIS_LEN` and
`ny_new = int(nx_new * ny / nx)` (float truncation modelled as Nat
division), and the other branch sets `ny_new = _RESIZE_AXIS_LEN`,
`nx_new = int(ny_new * nx / ny)`; otherwise the shape is unchanged. -/
def resizeShape (ny nx : Nat) : Nat × Nat :=
  if ny * nx < MIN_NPIXELS ∨ ny * nx > MAX_NPIXELS then
    if nx ≤ ny then (RESIZE_AXIS_LEN * ny / nx, RESIZE_AXIS_LEN)
    else (RESIZE_AXIS_LEN, RESIZE_AXIS_LEN * nx / ny)
  else (ny, nx)

/-- Value-level model of `Model3D.resize`.  Outside the pixel-count range
the image is resampled to `resizeShape` (nearest-neighbour sampling models
the external `PIL.Image.resize`); inside the range the image is returned
unchanged (the `astype(np.float64)` cast is the identity on our exact
rationals). -/
def resizeImg (img : Img) : Img :=
  let (ny, nx) := shape2 img
  let (ny2, nx2) := resizeShape ny nx
  if (ny2, nx2) = (ny, nx) then img
  else
    (List.range ny2).map (fun i =>
      (List.range nx2).map (fun j => cell img (i * ny / ny2) (j * nx / nx2)))

/-! ### `combine_masks` (src/astro3d/image_utils.py, lines 136-157) -/

/-- Pixelwise boolean OR of two masks (`np.logical_or`). -/
def orMask (a b : Mask) : Mask := List.zipWith (List.zipWith or) a b

/-- `combine_masks`: `None` for an empty list, the mask itself for a
single mask, and the left-fold OR-reduction (`reduce`) otherwise. -/
def combineMasks (masks : List Mask) : Option Mask :=
  match masks with
  | [] => none
  | m :: ms => some (ms.foldl orMask m)

/-! ### `crop_below_threshold` (src/astro3d/image_utils.py, lines 102-133) -/

/-- Row-major list of the `(row, col)` indices of all cells whose value
strictly exceeds the threshold (`np.where(data > threshold)`). -/
def exceedCells (data : Img) (threshold : ℚ) : List (Nat × Nat) :=
  data.enum.flatMap (fun ir =>
    ir.2.enum.filterMap (fun jv =>
      if jv.2 > threshold then some (ir.1, jv.1) else none))

/-- Minimum of a list of naturals; `none` on the empty list (`min` of an
empty sequence raises `ValueError` in the source). -/
def natMin : List Nat → Option Nat
  | [] => none
  | x :: xs => some (xs.foldl Nat.min x)

/-- Maximum of a list of naturals; `none` on the empty list. -/
def natMax : List Nat → Option Nat
  | [] => none
  | x :: xs => some (xs.foldl Nat.max x)

/-- `crop_below_threshold(data, threshold)`: the slice bounds
`((y0, y1), (x0, x1))` with `y0 = min(idx[0])`, `y1 = max(idx[0]) + 1`,
`x0 = min(idx[1])`, `x1 = max(idx[1]) + 1` over
`idx = np.where(data > threshold)`; `none` models the `ValueError`
raised when no cell exceeds the threshold. -/
def crop_below_threshold (data : Img) (threshold : ℚ) :
    Option ((Nat × Nat) × (Nat × Nat)) :=
  let cells := exceedCells data threshold
  match natMin (cells.map Prod.fst), natMax (cells.map Prod.fst),
        natMin (cells.map Prod.snd), natMax (cells.map Prod.snd) with
  | some y0, some ymax, some x0, some xmax => some ((y0, ymax + 1), (x0, xmax + 1))
  | _, _, _, _ => none

/-- The crop scenario grid: a 100x100 zero array with a 10x10 block of
value 100 at rows 40-49 and columns 40-49. -/
def cropScenarioGrid : Img :=
  (List.range 100).map (fun i =>
    (List.range 100).map (fun j =>
      if 40 ≤ i ∧ i ≤ 49 ∧ 40 ≤ j ∧ j ≤ 49 then (100 : ℚ) else 0))

/-! ### `Model3D._crop_peaks` (src/astro3d/utils/model3d.py, lines 471-486) -/

/-- One row of a peak table: `(xcen, ycen, flux)`. -/
structure Peak where
  xcen : ℚ
  ycen : ℚ
  flux : ℚ
deriving DecidableEq, Repr

/-- The row-selection predicate of `_crop_peaks`:
`(xcen > ix1) & (xcen < ix2 - 1) & (ycen > iy1) & (ycen < iy2 - 1)`. -/
def cropPeakKeep (ix1 ix2 iy1 iy2 : ℤ) (p : Peak) : Bool :=
  decide ((ix1 : ℚ) < p.xcen) && decide (p.xcen < (ix2 : ℚ) - 1) &&
  decide ((iy1 : ℚ) < p.ycen) && decide (p.ycen < (iy2 : ℚ) - 1)

/-- `Model3D._crop_peaks`: keep the rows selected by `cropPeakKeep`,
then shift the surviving coordinates by the crop origin
(`xcen -= ix1`, `ycen -= iy1`). -/
def crop_peaks (peaks : List Peak) (ix1 ix2 iy1 iy2 : ℤ) : List Peak :=
  (peaks.filter (cropPeakKeep ix1 ix2 iy1 iy2)).map
    (fun p => { p with xcen := p.xcen - (ix1 : ℚ), ycen := p.ycen - (iy1 : ℚ) })

/-! ### `make_base` (src/astro3d/utils/model3d.py, lines 961-999; the copy
in src/astro3d/utils/imageprep.py, lines 1551-1589, is identical) -/

/-- Reflected boundary indexing used by `scipy.ndimage` filters
(mode 'reflect': pattern `(d c b a | a b c d | d c b a)`). -/
def reflectIdx (n : Nat) (k : ℤ) : Nat :=
  if n = 0 then 0
  else
    let m := k % (2 * (n : ℤ))
    if m < (n : ℤ) then m.toNat else (2 * (n : ℤ) - 1 - m).toNat

/-- Window offsets of a scipy size-`d` filter at origin 0:
`[-(d / 2), d - 1 - d / 2]`. -/
def winOffsets (d : Nat) : List ℤ :=
  (List.range d).map (fun t => (t : ℤ) - ((d / 2 : Nat) : ℤ))

/-- Maximum of a non-empty list of rationals (0 for the empty list,
an unused edge). -/
def ratMaxL : List ℚ → ℚ
  | [] => 0
  | x :: xs => xs.foldl max x

/-- One output cell of `scipy.ndimage.filters.maximum_filter(image, d)`:
the maximum over the `d x d` reflected window centred at `(i, j)`. -/
def maxFilterAt (img : Img) (d : Nat) (i j : Nat) : ℚ :=
  ratMaxL ((winOffsets d).flatMap (fun di =>
    (winOffsets d).map (fun dj =>
      cell img (reflectIdx (shape2 img).1 ((i : ℤ) + di))
               (reflectIdx (shape2 img).2 ((j : ℤ) + dj)))))

/-- `scipy.ndimage.filters.maximum_filter` on the whole image. -/
def maxFilter (img : Img) : Nat → Img := fun d =>
  (List.range (shape2 img).1).map (fun i =>
    (List.range (shape2 img).2).map (fun j => maxFilterAt img d i j))

/-- The three sequential in-place masked assignments of the snap-off
branch of `make_base`, applied to one cell `m` of the max-filtered image:
`max_filt[max_filt < 1] = -5`, then `max_filt[max_filt > 1] = 0`, then
`max_filt[max_filt < 0] = height`. -/
def snapoffCell (height m : ℚ) : ℚ :=
  let s1 := if m < 1 then (-5 : ℚ) else m
  let s2 := if s1 > 1 then 0 else s1
  if s2 < 0 then height else s2

/-- `make_base(image, dist, height, snapoff)`. -/
def make_base (img : Img) (dist : Nat) (height : ℚ) (snapoff : Bool) : Img :=
  if snapoff then
    (maxFilter img dist).map (fun row => row.map (snapoffCell height))
  else
    img.map (fun row => row.map (fun _ => height))

/-! ### `add_clusters` and `make_star`
(src/astro3d/utils/imageprep.py, lines 1220-1232 and 1319-1341).
Marker arrays are the same 2D images the numpy code holds; `add_clusters`
is elementwise apart from two global minima over `cluster2`'s support. -/

/-- Running minimum with the accumulator destructured each step, so that
kernel evaluation of a long chain stays shallow (semantically this is
`foldl min`). -/
def ratMinGo (acc : ℚ) : List ℚ → ℚ
  | [] => acc
  | x :: xs =>
    match acc with
    | ⟨n, d, hnz, hred⟩ => ratMinGo (min (⟨n, d, hnz, hred⟩ : ℚ) x) xs

/-- Minimum of a list of rationals; `none` on the empty list (`min` of an
empty masked selection raises `ValueError` in numpy). -/
def ratMinL : List ℚ → Option ℚ
  | [] => none
  | x :: xs => some (ratMinGo x xs)

/-- `a[b != 0]` row-major: the values of `a` at the cells where `b` is
non-zero. -/
def maskedCells (a b : Img) : List ℚ :=
  (a.zip b).flatMap (fun rr =>
    ((rr.1.zip rr.2).filter (fun xy => xy.2 ≠ 0)).map Prod.fst)

/-- `add_clusters(cluster1, cluster2)`: with `mask = cluster2 != 0`,
if `cluster1[mask].min() < cluster2[mask].min()` then `cluster1[mask] =
cluster2[mask]`, else `cluster1[cluster1 == 0] = cluster2[cluster1 == 0]`;
`none` models the `ValueError` when `mask` selects no cell. -/
def add_clusters (a b : Img) : Option Img :=
  match ratMinL (maskedCells a b), ratMinL (maskedCells b b) with
  | some m1, some m2 =>
    some (if m1 < m2
      then List.zipWith (List.zipWith (fun x y => if y ≠ 0 then y else x)) a b
      else List.zipWith (List.zipWith (fun x y => if x = 0 then y else x)) a b)
  | _, _ => none

/-- The minimum non-zero value of a marker array (the quantity the spec's
merge rule is phrased in terms of). -/
def minNonzero (g : Img) : Option ℚ :=
  ratMinL (g.flatMap (fun r => r.filter (fun x => x ≠ 0)))

/-- The spec's merge rule for `add_clusters`, stated as a predicate on a
concrete pair of marker arrays: at every overlapping non-zero cell the
result holds the values of the marker whose minimum non-zero value is
strictly lower. -/
def addClustersSpecRule (a b : Img) : Prop :=
  ∀ r, add_clusters a b = some r →
    ∀ i j, i < a.length → j < (a.getD i []).length →
      cell a i j ≠ 0 → cell b i j ≠ 0 →
      ∀ ma mb, minNonzero a = some ma → minNonzero b = some mb →
        (ma < mb → cell r i j = cell a i j) ∧
        (mb < ma → cell r i j = cell b i j)

/-- A radius/height crater marker centred at `(cy, cx)` on an
`ny x nx` zero canvas.  Embeds `make_star`
(`star = height / radius**2 * r**2`, sentinel `-1` where `r > radius`)
inserted the way `make_star_cluster` does with a zero base: cells inside
the radius receive the crater value (`r <= radius` iff `r^2 <= radius^2`,
avoiding the square root), sentinel cells keep the background 0. -/
def placeStar (ny nx : Nat) (cy cx radius : ℤ) (height : ℚ) : Img :=
  (List.range ny).map (fun i =>
    (List.range nx).map (fun j =>
      let r2 : ℤ := ((i : ℤ) - cy) ^ 2 + ((j : ℤ) - cx) ^ 2
      if r2 ≤ radius ^ 2 then height * (r2 : ℚ) / ((radius : ℚ) ^ 2) else 0))

/-- First crater of the marker-overlap scenario: radius 10, height 5,
centred at (50, 50) on a 66x66 canvas (large enough to contain both
craters). -/
def craterA : Img := placeStar 66 66 50 50 10 5

/-- Second crater of the marker-overlap scenario: radius 10, height 5,
centred at (55, 50). -/
def craterB : Img := placeStar 66 66 55 50 10 5

/-- The merged marker array produced by `add_clusters` on the two
scenario craters. -/
def craterMerged : Img := (add_clusters craterA craterB).getD []

/-! ### `scale_top` (src/astro3d/utils/model3d.py, lines 834-875) -/

/-- Flatten an image to a row-major 1D list. -/
def flatten (img : Img) : List ℚ := img.foldr (fun r acc => r ++ acc) []

/-- Sum of a list of rationals. -/
def listSum (l : List ℚ) : ℚ := l.foldl (· + ·) 0

/-- `image.mean()`. -/
def imgMean (img : Img) : ℚ := listSum (flatten img) / ((flatten img).length : ℚ)

/-- `image.var()` (population variance, the quantity under numpy's std). -/
def imgVar (img : Img) : ℚ :=
  listSum ((flatten img).map (fun x => (x - imgMean img) ^ 2)) /
    ((flatten img).length : ℚ)

/-- Fixed-precision rational Newton iteration modelling the floating
square root inside `image.std()`; the claims proved about `scale_top` do
not depend on its rounding. -/
def ratSqrt (q : ℚ) : ℚ :=
  if q ≤ 0 then 0 else (List.range 6).foldl (fun x _ => (x + q / x) / 2) 1

/-- `image.std()` modelled as `ratSqrt` of the population variance. -/
def imgStd (img : Img) : ℚ := ratSqrt (imgVar img)

/-- `image.max()`. -/
def imgMaxQ (img : Img) : ℚ := ratMaxL (flatten img)

/-- Insert into a sorted list (ascending). -/
def insertSorted (x : ℚ) : List ℚ → List ℚ
  | [] => [x]
  | y :: ys => if x ≤ y then x :: y :: ys else y :: insertSorted x ys

/-- Insertion sort, ascending (numpy sorts before taking a percentile). -/
def sortQ : List ℚ → List ℚ
  | [] => []
  | x :: xs => insertSorted x (sortQ xs)

/-- `np.percentile(l, p)` with the default linear interpolation:
value at fractional rank `(n - 1) * p / 100` of the sorted data. -/
def percentileQ (l : List ℚ) (p : ℚ) : ℚ :=
  let s := sortQ l
  let n := s.length
  if n = 0 then 0
  else
    let rank : ℚ := ((n : ℚ) - 1) * p / 100
    let i : Nat := (⌊rank⌋).toNat
    let lo := s.getD i 0
    let hi := s.getD (min (i + 1) (n - 1)) 0
    lo + (rank - (i : ℚ)) * (hi - lo)

/-- `image[mask]` flattened row-major. -/
def maskedValsImg (img : Img) (m : Mask) : List ℚ :=
  (img.zip m).flatMap (fun rm =>
    (rm.1.zip rm.2).filterMap (fun vb => if vb.2 then some vb.1 else none))

/-- The top threshold of `scale_top`: `np.percentile(image[mask], percent)`
when a mask is given, else `image.mean() + image.std()`. -/
def scaleTopThreshold (img : Img) (mask : Option Mask) (percent : ℚ) : ℚ :=
  match mask with
  | none => imgMean img + imgStd img
  | some m => percentileQ (maskedValsImg img m) percent

/-- `scale_top(input_image, mask, percent, factor)`: the input is deep
copied (here: a new image is returned and the argument is untouched by
construction), and the cells above the threshold are rescaled by
`top + (x - top) * factor / image.max()` while every other cell keeps its
value. -/
def scale_top (img : Img) (mask : Option Mask) (percent factor : ℚ) : Img :=
  let top := scaleTopThreshold img mask percent
  let mx := imgMaxQ img
  img.map (fun row => row.map (fun x =>
    if x > top then top + (x - top) * factor / mx else x))

/-! ### The `Model3D` pipeline state
(src/astro3d/utils/model3d.py, class `Model3D`).

The mutable Python object is embedded as a record; every in-place
assignment `self._x = v` becomes a functional record update, and a method
that can raise returns the object state reached at the raise point
together with the error (Python exceptions leave the already-performed
mutations in place). -/

/-- The errors the embedded pipeline can raise: `remove_stars` hits an
empty smooth mask (`ptp` of an empty selection), the crop step finds no
pixel above threshold, or `make_model_base` reads a missing texture layer. -/
inductive PipeErr where
  | emptyMask : PipeErr
  | emptyCrop : PipeErr
  | missingTexture : PipeErr
deriving DecidableEq, Repr

/-- Mode-dependent key of regions to smooth (`Model3D.smooth_key`). -/
def smoothKey (spiral : Bool) : String :=
  if spiral then "remove_star" else "smooth"

/-- Mode-dependent key of small-dot regions (`Model3D.small_dots_key`). -/
def smallDotsKey (spiral : Bool) : String :=
  if spiral then "gas" else "dots_small"

/-- Mode-dependent key of dot regions (`Model3D.dots_key`). -/
def dotsKey (spiral : Bool) : String :=
  if spiral then "spiral" else "dots"

/-- Mode-dependent key of line regions (`Model3D.lines_key`). -/
def linesKey (spiral : Bool) : String :=
  if spiral then "disk" else "lines"

/-- The full pipeline state: input snapshot, configuration, and the
result slots that `make()` fills (all `none` until a run reaches the
corresponding assignment). -/
structure Model3D where
  input_image : Img
  preproc_img : Img
  region_masks : List (String × List Mask)
  peaks_clusters : List Peak
  peaks_stars : List Peak
  height : ℚ
  base_thickness : ℚ
  clus_r_fac_add : ℚ
  clus_r_fac_mul : ℚ
  star_r_fac_add : ℚ
  star_r_fac_mul : ℚ
  double_sided : Bool
  has_texture : Bool
  has_intensity : Bool
  is_spiralgal : Bool
  layer_order : List String
  preview_intensity : Option Img
  out_image : Option Img
  texture_layer : Option Img
  preview_masks : Option (List (List String))
  final_peaks : Option (List Peak × List Peak)
deriving DecidableEq, Repr

/-- `Model3D.__init__`: inputs stored, configuration defaults, result
slots empty, and the input image resized once at construction time. -/
def initModel (image : Img) : Model3D where
  input_image := image
  preproc_img := resizeImg image
  region_masks := []
  peaks_clusters := []
  peaks_stars := []
  height := 150
  base_thickness := 20
  clus_r_fac_add := 10
  clus_r_fac_mul := 5
  star_r_fac_add := 10
  star_r_fac_mul := 5
  double_sided := false
  has_texture := true
  has_intensity := true
  is_spiralgal := false
  layer_order := [linesKey false, dotsKey false, smallDotsKey false]
  preview_intensity := none
  out_image := none
  texture_layer := none
  preview_masks := none
  final_peaks := none

/-- The `has_texture` setter: raises (message returned, state unchanged)
when intensity is already off and the new value is `False`; otherwise
stores the new value. -/
def setHasTexture (s : Model3D) (value : Bool) : Model3D × Option String :=
  if s.has_intensity = false ∧ value = false then
    (s, some "Model must have textures or intensity!")
  else ({ s with has_texture := value }, none)

/-- The `has_intensity` setter, symmetric to `setHasTexture`. -/
def setHasIntensity (s : Model3D) (value : Bool) : Model3D × Option String :=
  if s.has_texture = false ∧ value = false then
    (s, some "Model must have textures or intensity!")
  else ({ s with has_intensity := value }, none)

/-- The configuration invariant the spec states for the stage flags. -/
def flagsLegal (s : Model3D) : Prop :=
  s.has_texture = true ∨ s.has_intensity = true

/-- All result slots of a `Model3D` are still unset. -/
def resultsNone (s : Model3D) : Prop :=
  s.preview_intensity = none ∧ s.out_image = none ∧ s.texture_layer = none ∧
  s.preview_masks = none ∧ s.final_peaks = none

instance {s : Model3D} : Decidable (resultsNone s) := by
  unfold resultsNone; infer_instance

/-- `Model3D.preview_intensity` getter: `ValueError` until `make()` has
stored a result. -/
def previewIntensity (s : Model3D) : Except String Img :=
  match s.preview_intensity with
  | none => .error "Run make() first"
  | some v => .ok v

/-- `Model3D.out_image` getter. -/
def outImage (s : Model3D) : Except String Img :=
  match s.out_image with
  | none => .error "Run make() first"
  | some v => .ok v

/-- `Model3D.get_preview_mask(key)`: the boolean mask of cells whose
preview code equals `key`. -/
def getPreviewMask (s : Model3D) (key : String) : Except String Mask :=
  match s.preview_masks with
  | none => .error "Run make() first"
  | some pm => .ok (pm.map (fun row => row.map (fun c => decide (c = key))))

/-- `Model3D.get_final_clusters`. -/
def getFinalClusters (s : Model3D) : Except String (List Peak) :=
  match s.final_peaks with
  | none => .error "Run make() first"
  | some fp => .ok fp.1

/-- `Model3D.get_final_stars`. -/
def getFinalStars (s : Model3D) : Except String (List Peak) :=
  match s.final_peaks with
  | none => .error "Run make() first"
  | some fp => .ok fp.2

/-! ### The stages of `Model3D.make` -/

/-- The list of masks stored under a key (`defaultdict(list)` read:
an absent key yields the empty list). -/
def masksFor (rm : List (String × List Mask)) (key : String) : List Mask :=
  ((rm.find? (fun kv => kv.1 = key)).map Prod.snd).getD []

/-- Modelled from the spec: `TextureMask.resize` of
`astro3d.utils.textures` (module not under src) — a region mask is
rescaled once per run to the working (resized) image shape; realised by
nearest sampling, the exact resampler being a collaborator concern. -/
def resizeMaskTo (m : Mask) (sh : Nat × Nat) : Mask :=
  (List.range sh.1).map (fun i =>
    (List.range sh.2).map (fun j =>
      mcell m (i * m.length / sh.1) (j * (shape2 m).2 / sh.2)))

/-- The `disk` mask extracted by `_process_masks`/`_crop_masks`: the
first mask under the lines key, spiral-galaxy mode only. -/
def diskOf (masks : List (String × List Mask)) (spiral : Bool) : Option Mask :=
  if spiral then (masksFor masks (linesKey true)).head? else none

/-- `Model3D._process_peaks`: coordinates scaled by
`preproc_img.shape[0] / input_image.shape[0]`. -/
def scalePeaks (peaks : List Peak) (fac : ℚ) : List Peak :=
  peaks.map (fun p => { p with xcen := p.xcen * fac, ycen := p.ycen * fac })

/-- Row-major indices of the `True` cells of a mask (`np.where(mask)`). -/
def whereTrue (m : Mask) : List (Nat × Nat) :=
  m.enum.flatMap (fun ir =>
    ir.2.enum.filterMap (fun jb => if jb.2 then some (ir.1, jb.1) else none))

/-- Python/numpy integer indexing: indices in `[0, n)` are used directly,
indices in `[-n, 0)` wrap around, anything else raises `IndexError`. -/
def npIndex (n : Nat) (k : ℤ) : Option Nat :=
  if 0 ≤ k ∧ k < (n : ℤ) then some k.toNat
  else if -(n : ℤ) ≤ k ∧ k < 0 then some (k + (n : ℤ)).toNat
  else none

/-- Fancy indexing `image[yy, xx]`: `none` models the `IndexError` when
any index is out of range. -/
def npGather (img : Img) (pts : List (ℤ × ℤ)) : Option (List ℚ) :=
  pts.mapM (fun p => do
    let i ← npIndex img.length p.1
    let j ← npIndex (shape2 img).2 p.2
    pure (cell img i j))

/-- Mean of a list of rationals (numpy's nan on an empty selection is
modelled as 0; the affected warning path never feeds back into control
flow here). -/
def listMeanQ (l : List ℚ) : ℚ := listSum l / (l.length : ℚ)

/-- `np.argmax`: index of the first maximum (0 for the empty list). -/
def argmaxQ (l : List ℚ) : Nat :=
  match l with
  | [] => 0
  | x :: xs =>
    (xs.foldl (fun (acc : Nat × ℚ × Nat) v =>
      if v > acc.2.1 then (acc.2.2, v, acc.2.2 + 1)
      else (acc.1, acc.2.1, acc.2.2 + 1)) (0, x, 1)).1

/-- Write one value into one cell (`image[i, j] = v`). -/
def setCell (img : Img) (i j : Nat) (v : ℚ) : Img :=
  img.set i ((img.getD i []).set j v)

/-- The masked scatter `image[mask] = values`, cells enumerated row-major. -/
def scatterCells (img : Img) (pts : List (Nat × Nat)) (vals : List ℚ) : Img :=
  (pts.zip vals).foldl (fun im pv => setCell im pv.1.1 pv.1.2 pv.2) img

/-- One mask of module-level `remove_stars`
(src/astro3d/utils/model3d.py, lines 789-831): sample the four windows
shifted by the mask extent `dist = max(ptp(y), ptp(x))`, drop the shifts
that raise `IndexError`, warn and skip when all four fail, else overwrite
the masked cells with the sample of highest mean.  An empty mask makes
`ptp` raise (`emptyMask`). -/
def removeStarsOne (img : Img) (mask : Mask) : Except PipeErr Img :=
  let pts := whereTrue mask
  match natMin (pts.map Prod.fst), natMax (pts.map Prod.fst),
        natMin (pts.map Prod.snd), natMax (pts.map Prod.snd) with
  | some ymin, some ymax, some xmin, some xmax =>
    let dist : ℤ := max ((ymax : ℤ) - ymin) ((xmax : ℤ) - xmin)
    let shifts : List (List (ℤ × ℤ)) :=
      [pts.map (fun p => ((p.1 : ℤ) + dist, (p.2 : ℤ))),
       pts.map (fun p => ((p.1 : ℤ) - dist, (p.2 : ℤ))),
       pts.map (fun p => ((p.1 : ℤ), (p.2 : ℤ) + dist)),
       pts.map (fun p => ((p.1 : ℤ), (p.2 : ℤ) - dist))]
    let newmasks := shifts.filterMap (npGather img)
    match newmasks with
    | [] => .ok img
    | _ =>
      let vals := newmasks.getD (argmaxQ (newmasks.map listMeanQ)) []
      .ok (scatterCells img pts vals)
  | _, _, _, _ => .error .emptyMask

/-- Module-level `remove_stars` over the list of smooth-region masks. -/
def removeStars (img : Img) (masks : List Mask) : Except PipeErr Img :=
  masks.foldlM removeStarsOne img

/-- All cell values of the `d x d` reflected window centred at `(i, j)`
(shared by the scipy filter models). -/
def windowVals (img : Img) (d : Nat) (i j : Nat) : List ℚ :=
  (winOffsets d).flatMap (fun di =>
    (winOffsets d).map (fun dj =>
      cell img (reflectIdx (shape2 img).1 ((i : ℤ) + di))
               (reflectIdx (shape2 img).2 ((j : ℤ) + dj))))

/-- One cell of the external `scipy.ndimage.filters.median_filter`:
the rank `d*d / 2` element of the sorted window. -/
def medianAt (img : Img) (d : Nat) (i j : Nat) : ℚ :=
  let s := sortQ (windowVals img d i j)
  s.getD (s.length / 2) 0

/-- The external `scipy.ndimage.filters.median_filter(image, d)`. -/
def medianFilter (img : Img) (d : Nat) : Img :=
  (List.range (shape2 img).1).map (fun i =>
    (List.range (shape2 img).2).map (fun j => medianAt img d i j))

/-- Fixed separable kernel standing in for the external
`scipy.ndimage.filters.gaussian_filter(image, 3)`; the floating Gaussian
weights are a collaborator concern and no claim depends on them, only on
the filter being a fixed pure function. -/
def gaussKernel : List (ℤ × ℚ) :=
  [(-2, 1/16), (-1, 4/16), (0, 6/16), (1, 4/16), (2, 1/16)]

/-- One cell of the modelled Gaussian filter (reflected boundary). -/
def gaussianAt (img : Img) (i j : Nat) : ℚ :=
  listSum (gaussKernel.flatMap (fun oi =>
    gaussKernel.map (fun oj =>
      oi.2 * oj.2 * cell img (reflectIdx (shape2 img).1 ((i : ℤ) + oi.1))
                             (reflectIdx (shape2 img).2 ((j : ℤ) + oj.1)))))

/-- The modelled external Gaussian filter on the whole image. -/
def gaussianFilter (img : Img) : Img :=
  (List.range (shape2 img).1).map (fun i =>
    (List.range (shape2 img).2).map (fun j => gaussianAt img i j))

/-- `image.min()`. -/
def imgMinQ (img : Img) : ℚ :=
  match flatten img with
  | [] => 0
  | x :: xs => xs.foldl min x

/-- Modelled from the spec: `normalize(image, clip_negative, max_value)`
of `astro3d.utils.image_utils` (module not under src) — linear rescale of
the values to `[0, max_value]` based on the current min/max, with values
below 0 floored at 0 after scaling when `clip_negative`.  A constant
image maps to 0 (guarding the zero range). -/
def normalizeImg (img : Img) (clip : Bool) (maxv : ℚ) : Img :=
  let mn := imgMinQ img
  let mx := imgMaxQ img
  if mx = mn then img.map (fun r => r.map (fun _ => (0 : ℚ)))
  else img.map (fun r => r.map (fun x =>
    let y := (x - mn) / (mx - mn) * maxv
    if clip ∧ y < 0 then 0 else y))

/-- The `bigdisk` mask of `Model3D.spiralgalaxy_scale_top`: cells closer
to the image centre `(nx // 2, ny // 2)` than half the maximum radius;
`r < rgrid.max() / 2` is embedded square-free as `4 * r^2 < max(r^2)`. -/
def bigdiskMask (sh : Nat × Nat) : Mask :=
  let xc : ℤ := (sh.2 / 2 : Nat)
  let yc : ℤ := (sh.1 / 2 : Nat)
  let r2 : Nat → Nat → ℤ := fun i j => ((i : ℤ) - yc) ^ 2 + ((j : ℤ) - xc) ^ 2
  let rmax2 : ℤ := ((List.range sh.1).flatMap (fun i =>
    (List.range sh.2).map (fun j => r2 i j))).foldl max 0
  (List.range sh.1).map (fun i =>
    (List.range sh.2).map (fun j => decide (4 * r2 i j < rmax2)))

/-- One round of `emphasize_regions`
(src/astro3d/utils/model3d.py, lines 902-943): the floor is the least
per-mask mean (whole-image mean when no masks), minus half a standard
deviation; cells below the floor are softly suppressed by
`x * (x / floor)`. -/
def emphasizeStep (masks : List Mask) (img : Img) : Img :=
  let m0 := if masks.isEmpty then imgMean img
            else (ratMinL (masks.map (fun m => listMeanQ (maskedValsImg img m)))).getD 0
  let mn := m0 - imgStd img * (1/2)
  img.map (fun r => r.map (fun x => if x < mn then x * (x / mn) else x))

/-- `emphasize_regions(image, masks)` with the default `niter=2` rounds
and final hard zeroing below the default `threshold=20`. -/
def emphasizeRegions (img : Img) (masks : List Mask) : Img :=
  let im2 := emphasizeStep masks (emphasizeStep masks img)
  im2.map (fun r => r.map (fun x => if x < 20 then 0 else x))

/-- Rectangular sub-grid `g[y0:y1, x0:x1]`. -/
def sliceGrid (g : List (List α)) (y0 y1 x0 x1 : Nat) : List (List α) :=
  ((g.drop y0).take (y1 - y0)).map (fun r => (r.drop x0).take (x1 - x0))

/-- Modelled from the spec: `image_utils.crop_image(image, _max)` of
`astro3d.utils.image_utils` (module not under src) — crops the image to
the bounding box of the pixels above the normalized-max threshold
(1.0 scale point, spec step 8), realised with the sibling
`crop_below_threshold`, and raises when no pixel exceeds it.  Returns
the cropped image and `(iy1, iy2, ix1, ix2)`. -/
def cropImage (img : Img) (mx : ℚ) : Except PipeErr (Img × Nat × Nat × Nat × Nat) :=
  match crop_below_threshold img mx with
  | some ((y0, y1), (x0, x1)) => .ok (sliceGrid img y0 y1 x0 x1, y0, y1, x0, x1)
  | none => .error .emptyCrop

/-- `Model3D._crop_masks`: drop the smooth key (already consumed) and
slice every remaining mask with the image's crop box. -/
def cropMasks (masks : List (String × List Mask)) (spiral : Bool)
    (y0 y1 x0 x1 : Nat) : List (String × List Mask) :=
  (masks.filter (fun kv => kv.1 ≠ smoothKey spiral)).map
    (fun kv => (kv.1, kv.2.map (fun m => sliceGrid m y0 y1 x0 x1)))

/-- The fresh key-coded preview-mask layer (`np.zeros(shape, dtype='S10')`:
every cell the empty string). -/
def emptyPreview (sh : Nat × Nat) : List (List String) :=
  (List.range sh.1).map (fun _ => (List.range sh.2).map (fun _ => ""))

/-- Pixelwise sum of two images (`image + base`). -/
def addImg (a b : Img) : Img := List.zipWith (List.zipWith (· + ·)) a b

/-- Masked overwrite `base[mask] = tx[mask]` for value layers. -/
def overwriteWhereQ (baseg : Img) (m : Mask) (tx : Img) : Img :=
  (baseg.zip (m.zip tx)).map (fun rt =>
    (rt.1.zip (rt.2.1.zip rt.2.2)).map (fun ct => if ct.2.1 then ct.2.2 else ct.1))

/-- Masked overwrite `base[mask] = key` for the preview layer. -/
def overwriteWhereS (baseg : List (List String)) (m : Mask) (key : String) :
    List (List String) :=
  (baseg.zip m).map (fun rt =>
    (rt.1.zip rt.2).map (fun cb => if cb.2 then key else cb.1))

/-- Modelled from the spec: the `DOTS` texture generator of
`astro3d.utils.textures` (module not under src) — a deterministic raised
dot grid of fixed spacing and height scale over the mask's shape; the
claims proved here depend only on it being a fixed pure function. -/
def dotsTexture (m : Mask) : Img :=
  (List.range m.length).map (fun i =>
    (List.range (shape2 m).2).map (fun j =>
      if i % 7 = 0 ∧ j % 7 = 0 then (16 / 5 : ℚ) else 0))

/-- Modelled from the spec: the `SMALL_DOTS` generator (tighter spacing,
lower scale), same caveat as `dotsTexture`. -/
def smallDotsTexture (m : Mask) : Img :=
  (List.range m.length).map (fun i =>
    (List.range (shape2 m).2).map (fun j =>
      if i % 5 = 0 ∧ j % 5 = 0 then (1 : ℚ) else 0))

/-- Modelled from the spec: the `LINES` generator (parallel horizontal
rulings of fixed spacing/width/height), same caveat as `dotsTexture`. -/
def linesTexture (m : Mask) : Img :=
  (List.range m.length).map (fun i =>
    (List.range (shape2 m).2).map (fun _ =>
      if i % 20 < 2 then (5 / 2 : ℚ) else 0))

/-- The texture-function dispatch of `Model3D.add_textures`: dots key,
then small-dots key, then lines key; any other key is skipped with a
warning. -/
def texFuncFor (spiral : Bool) (key : String) : Option (Mask → Img) :=
  if key = dotsKey spiral then some dotsTexture
  else if key = smallDotsKey spiral then some smallDotsTexture
  else if key = linesKey spiral then some linesTexture
  else none

/-- `Model3D.add_textures`: a fresh zero texture layer is painted by the
configured layers bottom-up (reverse `layer_order`); each masked write
also updates the preview layer; finally the texture layer is added onto
the image.  Returns `(image + layer, layer, preview)`. -/
def addTextures (spiral : Bool) (layerOrder : List String)
    (croppedmasks : List (String × List Mask)) (img : Img)
    (pv0 : List (List String)) : Img × Img × List (List String) :=
  let tl0 : Img := img.map (fun r => r.map (fun _ => (0 : ℚ)))
  let tp := layerOrder.reverse.foldl (fun acc key =>
    match texFuncFor spiral key with
    | none => acc
    | some f => (masksFor croppedmasks key).foldl (fun acc2 m =>
        (overwriteWhereQ acc2.1 m (f m), overwriteWhereS acc2.2 m key)) acc)
    (tl0, pv0)
  (addImg img tp.1, tp.1, tp.2)

/-- Positions at which the (optionally masked) image attains its maximum
(`np.where(data == data.max())` of `find_galaxy_center`,
src/astro3d/utils/model3d.py, lines 878-899). -/
def maxPositions (img : Img) (mask : Option Mask) : List (Nat × Nat) :=
  match mask with
  | none =>
    img.enum.flatMap (fun ir => ir.2.enum.filterMap (fun jv =>
      if jv.2 = imgMaxQ img then some (ir.1, jv.1) else none))
  | some m =>
    let mx := ratMaxL (maskedValsImg img m)
    img.enum.flatMap (fun ir => ir.2.enum.filterMap (fun jv =>
      if mcell m ir.1 jv.1 ∧ jv.2 = mx then some (ir.1, jv.1) else none))

/-- `find_galaxy_center`: the mean position of the maximum, returned as
`(x_center, y_center)`. -/
def findGalaxyCenter (img : Img) (mask : Option Mask) : ℚ × ℚ :=
  let ps := maxPositions img mask
  (listMeanQ (ps.map (fun p => (p.2 : ℚ))), listMeanQ (ps.map (fun p => (p.1 : ℚ))))

/-- The values of the cells within `radius` of the cusp centre. -/
def cuspRegionVals (img : Img) (x y radius : ℚ) : List ℚ :=
  img.enum.flatMap (fun ir => ir.2.enum.filterMap (fun jv =>
    if ((ir.1 : ℚ) - y) ^ 2 + ((jv.1 : ℚ) - x) ^ 2 ≤ radius ^ 2 then some jv.2
    else none))

/-- Modelled from the spec: `apply_cusp_texture` of
`astro3d.utils.textures` (module not under src) — replaces a disk of the
given radius around the centre with a paraboloid crater of the given
depth, seated on a local percentile base when one is requested
(spec section 4.2 and pipeline step 10). -/
def applyCuspTexture (img : Img) (x y radius depth : ℚ) (basePct : Option ℚ) : Img :=
  let base := match basePct with
    | some p => percentileQ (cuspRegionVals img x y radius) p
    | none => 0
  img.enum.map (fun ir => ir.2.enum.map (fun jv =>
    let r2 := ((ir.1 : ℚ) - y) ^ 2 + ((jv.1 : ℚ) - x) ^ 2
    if r2 ≤ radius ^ 2 ∧ radius ≠ 0 then base + depth * r2 / radius ^ 2 else jv.2))

/-- Overwrite the cells of `a` where `b` is non-zero with `b`'s values
(sequential crater placement inside one marker array). -/
def overwriteNonzero (a b : Img) : Img :=
  (a.zip b).map (fun rr => (rr.1.zip rr.2).map (fun xy =>
    if xy.2 ≠ 0 then xy.2 else xy.1))

/-- The `add_clusters` merge rule lifted to 2D marker layers (total: the
first layer is returned unchanged when the second has no non-zero cell,
the silently-dropped empty-marker path). -/
def addClusters2 (a b : Img) : Img :=
  (add_clusters a b).getD a

/-- A single crater marker on an `sh` canvas centred at the (rational)
coordinates `(cy, cx)`, per `make_star` (square-free radius test). -/
def marker2D (sh : Nat × Nat) (cy cx radius h : ℚ) : Img :=
  (List.range sh.1).map (fun i =>
    (List.range sh.2).map (fun j =>
      let r2 : ℚ := ((i : ℚ) - cy) ^ 2 + ((j : ℚ) - cx) ^ 2
      if r2 ≤ radius ^ 2 ∧ radius ≠ 0 then h * r2 / radius ^ 2 else 0))

/-- Stable insertion into a flux-ascending list. -/
def insertPeakAsc (p : Peak) : List Peak → List Peak
  | [] => [p]
  | q :: qs => if p.flux ≤ q.flux then p :: q :: qs else q :: insertPeakAsc p qs

/-- Sort a peak table by ascending flux (brighter markers painted last). -/
def sortPeaksByFlux : List Peak → List Peak
  | [] => []
  | p :: ps => insertPeakAsc p (sortPeaksByFlux ps)

/-- Modelled from the spec: the marker layer of one peak table
(spec section 4.3) — per peak, radius `radius_a + radius_b * flux /
max_flux`; one crater for a star, three at 120 degrees for a cluster
(`dy = radius * sqrt(3) / 2`); entries processed in ascending-flux order
and merged with the `add_clusters` rule. -/
def starlikeLayer (sh : Nat × Nat) (peaks : List Peak) (ncraters : Nat)
    (ra rb depth : ℚ) : Img :=
  let zero : Img := (List.range sh.1).map (fun _ =>
    (List.range sh.2).map (fun _ => (0 : ℚ)))
  let maxflux := ratMaxL (peaks.map (fun p => p.flux))
  (sortPeaksByFlux peaks).foldl (fun lay p =>
    let radius := ra + rb * p.flux / maxflux
    let mk : Img :=
      if ncraters = 1 then marker2D sh p.ycen p.xcen radius depth
      else
        let dy := radius * ratSqrt 3 / 2
        overwriteNonzero
          (overwriteNonzero (marker2D sh (p.ycen + dy) p.xcen radius depth)
            (marker2D sh (p.ycen - dy) (p.xcen + radius) radius depth))
          (marker2D sh (p.ycen - dy) (p.xcen - radius) radius depth)
    addClusters2 lay mk) zero

/-- Modelled from the spec: `apply_starlike_textures` of
`astro3d.utils.textures` (module not under src) — the cluster and star
tables are rendered to marker layers, merged, and written into the image
(markers seated on the local intensity when a base percentile is
requested, on 0 otherwise); numeric edge cases degrade to warnings, so
the function is total. -/
def applyStarlikeTextures (img : Img) (markstars clusters : List Peak)
    (depth ra rb : ℚ) (basePct : Option ℚ) : Img :=
  let sh := shape2 img
  let lay := addClusters2 (starlikeLayer sh clusters 3 ra rb depth)
                          (starlikeLayer sh markstars 1 ra rb depth)
  (img.zip lay).map (fun rr => (rr.1.zip rr.2).map (fun xt =>
    if xt.2 ≠ 0 then (match basePct with | some _ => xt.1 | none => 0) + xt.2
    else xt.1))

/-- `Model3D.make_model_base`
(src/astro3d/utils/model3d.py, lines 664-678): snap-off base of width 100
and half thickness when double sided, flat base of the full thickness
otherwise; added to the image when intensity is on, else to the texture
layer — reading a missing texture layer is the `TypeError` of
`None + base`. -/
def modelBaseOut (doubleSided hasIntensity : Bool) (baseThickness : ℚ)
    (img : Img) (tl : Option Img) : Option Img × Option PipeErr :=
  let base := if doubleSided then make_base img 100 (baseThickness / 2) true
              else make_base img 60 baseThickness false
  if hasIntensity then (some (addImg img base), none)
  else match tl with
    | some t => (some (addImg t base), none)
    | none => (none, some .missingTexture)

/-! ### `Model3D.make`
(src/astro3d/utils/model3d.py, lines 488-552).

The run is split into `makeCore`, the pure pipeline computing from a
read-only snapshot of the inputs which result slots get written (a slot
is `some` exactly when the Python run reaches the corresponding
`self._x = ...` assignment before raising), and `applyMakeRes`, which
performs those writes; their composition `make` returns the final object
state and the raised error, if any. -/

/-- The fields `make()` reads (all deep-copied or read-only in the
source); `texture_layer` is passed separately since it is both read and
written. -/
structure MakeIn where
  preproc_img : Img
  input_image : Img
  region_masks : List (String × List Mask)
  peaks_clusters : List Peak
  peaks_stars : List Peak
  height : ℚ
  base_thickness : ℚ
  clus_r_fac_add : ℚ
  clus_r_fac_mul : ℚ
  double_sided : Bool
  has_texture : Bool
  has_intensity : Bool
  is_spiralgal : Bool
  layer_order : List String
deriving DecidableEq, Repr

/-- The result-slot writes of one `make()` run (`some` = the run reached
that assignment) plus the raised error. -/
structure MakeRes where
  err : Option PipeErr
  preview_intensity : Option Img
  out_image : Option Img
  texture_layer : Option Img
  preview_masks : Option (List (List String))
  final_peaks : Option (List Peak × List Peak)
deriving DecidableEq, Repr

/-- A run that raised before reaching any result assignment. -/
def errRes (e : PipeErr) : MakeRes where
  err := some e
  preview_intensity := none
  out_image := none
  texture_layer := none
  preview_masks := none
  final_peaks := none

/-- `Model3D._process_masks` on the snapshot of the inputs: every stored
mask is resized to the working shape; for keys other than the smooth key
the per-key list is collapsed by `combine_masks` (stored back as a
one-element list, or the empty list when the key held no masks). -/
def processMasksIn (rm : List (String × List Mask)) (spiral : Bool)
    (sh : Nat × Nat) : List (String × List Mask) :=
  rm.map (fun kv =>
    let masklist := kv.2.map (fun m => resizeMaskTo m sh)
    if kv.1 = smoothKey spiral then (kv.1, masklist)
    else (kv.1, (combineMasks masklist).toList))

/-- The stages of `make()` before any result assignment: resize masks,
remove stars, first median filter, normalize, spiral scale-top,
normalize, emphasize, then the crop.  Both possible errors (empty smooth
mask, empty crop) happen here, before anything is written. -/
def makePrep (m : MakeIn) : Except PipeErr (Img × Nat × Nat × Nat × Nat) :=
  let sh := shape2 m.preproc_img
  let scaled := processMasksIn m.region_masks m.is_spiralgal sh
  let disk := diskOf scaled m.is_spiralgal
  match removeStars m.preproc_img (masksFor scaled (smoothKey m.is_spiralgal)) with
  | .error e => .error e
  | .ok image1 =>
    let image2 := medianFilter image1 10
    let image3 := normalizeImg image2 true 1
    let image4 := if m.is_spiralgal ∧ disk.isSome then
        scale_top image3 (some (bigdiskMask (shape2 image3))) 90 10
      else image3
    let image5 := normalizeImg image4 true 1
    let image6 := emphasizeRegions image5
      (masksFor scaled (smallDotsKey m.is_spiralgal) ++
       masksFor scaled (dotsKey m.is_spiralgal) ++
       masksFor scaled (linesKey m.is_spiralgal))
    cropImage image6 1

/-- The stages of `make()` after a successful crop: crop masks and peaks
(`final_peaks` write), second filter pass, double normalize to `height`
(`preview_intensity` write, fresh preview layer), then the spiral cusp,
textures and star/cluster markers when texturing is on, and the base. -/
def makeAfterCrop (m : MakeIn) (tl0 : Option Img)
    (c : Img × Nat × Nat × Nat × Nat) : MakeRes :=
  let sh := shape2 m.preproc_img
  let scaled := processMasksIn m.region_masks m.is_spiralgal sh
  let fac : ℚ := ((shape2 m.preproc_img).1 : ℚ) / ((shape2 m.input_image).1 : ℚ)
  let image7 := c.1
  let y0 := c.2.1
  let y1 := c.2.2.1
  let x0 := c.2.2.2.1
  let x1 := c.2.2.2.2
  let cropped := cropMasks scaled m.is_spiralgal y0 y1 x0 x1
  let diskC := diskOf cropped m.is_spiralgal
  let clusters := crop_peaks (scalePeaks m.peaks_clusters fac)
    (x0 : ℤ) (x1 : ℤ) (y0 : ℤ) (y1 : ℤ)
  let markstars := crop_peaks (scalePeaks m.peaks_stars fac)
    (x0 : ℤ) (x1 : ℤ) (y0 : ℤ) (y1 : ℤ)
  let image8 := gaussianFilter (medianFilter image7 10)
  let image9 := normalizeImg image8 true m.height
  let image10 := normalizeImg image9 true m.height
  let pv0 := emptyPreview (shape2 image10)
  if m.has_texture then
    let image11 := if m.is_spiralgal then
        let c2 := findGalaxyCenter image10 diskC
        applyCuspTexture image10 c2.1 c2.2 25 20
          (if m.has_intensity then some 0 else none)
      else image10
    let tres := addTextures m.is_spiralgal m.layer_order cropped image11 pv0
    let image12 := applyStarlikeTextures tres.1 markstars clusters
      (if m.has_intensity then 5 else 10) m.clus_r_fac_add m.clus_r_fac_mul
      (if m.has_intensity then some 75 else none)
    let ob := modelBaseOut m.double_sided m.has_intensity m.base_thickness
      image12 (some tres.2.1)
    { err := ob.2, preview_intensity := some image10, out_image := ob.1,
      texture_layer := some tres.2.1, preview_masks := some tres.2.2,
      final_peaks := some (clusters, markstars) }
  else
    let ob := modelBaseOut m.double_sided m.has_intensity m.base_thickness
      image10 tl0
    { err := ob.2, preview_intensity := some image10, out_image := ob.1,
      texture_layer := none, preview_masks := some pv0,
      final_peaks := some (clusters, markstars) }

/-- The pure pipeline of one `make()` run. -/
def makeCore (m : MakeIn) (tl0 : Option Img) : MakeRes :=
  match makePrep m with
  | .error e => errRes e
  | .ok c => makeAfterCrop m tl0 c

/-- The read-only snapshot `make()` computes from. -/
def readsOf (s : Model3D) : MakeIn where
  preproc_img := s.preproc_img
  input_image := s.input_image
  region_masks := s.region_masks
  peaks_clusters := s.peaks_clusters
  peaks_stars := s.peaks_stars
  height := s.height
  base_thickness := s.base_thickness
  clus_r_fac_add := s.clus_r_fac_add
  clus_r_fac_mul := s.clus_r_fac_mul
  double_sided := s.double_sided
  has_texture := s.has_texture
  has_intensity := s.has_intensity
  is_spiralgal := s.is_spiralgal
  layer_order := s.layer_order

/-- Write a slot if the run reached its assignment. -/
def writeSlot (new old : Option α) : Option α :=
  match new with
  | some v => some v
  | none => old

/-- Apply the result-slot writes of a run to the object state. -/
def applyMakeRes (s : Model3D) (r : MakeRes) : Model3D :=
  { s with
    preview_intensity := writeSlot r.preview_intensity s.preview_intensity
    out_image := writeSlot r.out_image s.out_image
    texture_layer := writeSlot r.texture_layer s.texture_layer
    preview_masks := writeSlot r.preview_masks s.preview_masks
    final_peaks := writeSlot r.final_peaks s.final_peaks }

/-- `Model3D.make()`: run the pure pipeline on the input snapshot and
apply its writes; returns the final object state and the raised error. -/
def make (s : Model3D) : Model3D × Option PipeErr :=
  let r := makeCore (readsOf s) s.texture_layer
  (applyMakeRes s r, r.err)

/-! ### Concrete test fixtures used by witness theorems -/

/-- A fresh pipeline state over a 2x2 zero image (no region masks, no
peaks, default configuration); its `make()` run dies at the crop step
since no pixel exceeds the threshold. -/
def probeModel : Model3D where
  input_image := [[0, 0], [0, 0]]
  preproc_img := [[0, 0], [0, 0]]
  region_masks := []
  peaks_clusters := []
  peaks_stars := []
  height := 150
  base_thickness := 20
  clus_r_fac_add := 10
  clus_r_fac_mul := 5
  star_r_fac_add := 10
  star_r_fac_mul := 5
  double_sided := false
  has_texture := true
  has_intensity := true
  is_spiralgal := false
  layer_order := [linesKey false, dotsKey false, smallDotsKey false]
  preview_intensity := none
  out_image := none
  texture_layer := none
  preview_masks := none
  final_peaks := none

/-- `probeModel` with intensity switched off (texture still on), for
exercising the flag setters. -/
def probeModelNoIntensity : Model3D :=
  { probeModel with has_intensity := false }

/-! ## Lemmas about the pipeline state machine -/

theorem writeSlot_idem {α : Type} (n o : Option α) :
    writeSlot n (writeSlot n o) = writeSlot n o := by
  cases n <;> rfl

theorem readsOf_applyMakeRes (s : Model3D) (r : MakeRes) :
    readsOf (applyMakeRes s r) = readsOf s := rfl

theorem makeAfterCrop_tex_irrel (m : MakeIn) (t1 t2 : Option Img)
    (c : Img × Nat × Nat × Nat × Nat) (h : m.has_texture = true) :
    makeAfterCrop m t1 c = makeAfterCrop m t2 c := by
  unfold makeAfterCrop
  simp only [h, if_true]

theorem makeCore_tex_irrel (m : MakeIn) (t1 t2 : Option Img)
    (h : m.has_texture = true) : makeCore m t1 = makeCore m t2 := by
  unfold makeCore
  cases makePrep m with
  | error e => rfl
  | ok c => exact makeAfterCrop_tex_irrel m t1 t2 c h

theorem makeAfterCrop_no_tex (m : MakeIn) (tl0 : Option Img)
    (c : Img × Nat × Nat × Nat × Nat) (h : m.has_texture = false) :
    (makeAfterCrop m tl0 c).texture_layer = none := by
  unfold makeAfterCrop
  simp only [h, Bool.false_eq_true, if_false]

theorem makeCore_no_tex (m : MakeIn) (tl0 : Option Img)
    (h : m.has_texture = false) : (makeCore m tl0).texture_layer = none := by
  unfold makeCore
  cases makePrep m with
  | error e => rfl
  | ok c => exact makeAfterCrop_no_tex m tl0 c h

theorem modelBaseOut_some_err (ds hi : Bool) (bt : ℚ) (img t : Img) :
    (modelBaseOut ds hi bt img (some t)).2 = none := by
  unfold modelBaseOut
  cases hi <;> simp

theorem modelBaseOut_intensity_err (ds : Bool) (bt : ℚ) (img : Img)
    (tl : Option Img) : (modelBaseOut ds true bt img tl).2 = none := by
  unfold modelBaseOut
  simp

theorem makeAfterCrop_no_err (m : MakeIn) (tl0 : Option Img)
    (c : Img × Nat × Nat × Nat × Nat)
    (h : m.has_texture = true ∨ m.has_intensity = true) :
    (makeAfterCrop m tl0 c).err = none := by
  unfold makeAfterCrop
  cases hT : m.has_texture with
  | true => simp only [if_true]; exact modelBaseOut_some_err ..
  | false =>
    have hI : m.has_intensity = true := by
      rcases h with h | h
      · rw [hT] at h; exact absurd h (by simp)
      · exact h
    simp only [Bool.false_eq_true, if_false]
    rw [hI]
    exact modelBaseOut_intensity_err ..

theorem makeCore_err_fields (m : MakeIn) (tl0 : Option Img) (e : PipeErr)
    (hleg : m.has_texture = true ∨ m.has_intensity = true)
    (he : (makeCore m tl0).err = some e) : makeCore m tl0 = errRes e := by
  unfold makeCore at he ⊢
  cases hp : makePrep m with
  | error e2 =>
    rw [hp] at he
    have : e2 = e := by simpa [errRes] using he
    rw [this]
  | ok c =>
    rw [hp] at he
    rw [makeAfterCrop_no_err m tl0 c hleg] at he
    exact absurd he (by simp)

/-! ## Claim theorems -/

/-- C1.  The claim (and the source's own docstring) says `Model3D.resize`
rescales so that the LONGER axis equals the 1000-pixel target.  The code
does the opposite: for the 3000x1000 input — pixel count 3000000, outside
`[_MIN_NPIXELS, _MAX_NPIXELS]` — the `nx <= ny` branch assigns the target
to `nx` (the shorter axis) and `int(1000 * ny/nx) = 3000` to `ny`, so the
resized shape is (3000, 1000): the longer axis stays 3000 and the
SHORTER axis is 1000. -/
theorem resize_longaxis_code_bug :
    MAX_NPIXELS < 3000 * 1000 ∧
    resizeShape 3000 1000 = (3000, 1000) ∧
    max (resizeShape 3000 1000).1 (resizeShape 3000 1000).2 ≠ RESIZE_AXIS_LEN ∧
    min (resizeShape 3000 1000).1 (resizeShape 3000 1000).2 = RESIZE_AXIS_LEN := by
  decide

/-- C4.  Disabling `has_texture` while `has_intensity` is already off
raises the configuration `ValueError` at the point of assignment (the
setter returns the error and the unchanged state), and symmetrically for
`has_intensity`; and any assignment through either setter preserves the
`has_texture OR has_intensity` invariant. -/
theorem flag_setters_spec (s : Model3D) (hinv : flagsLegal s) :
    (s.has_intensity = false →
      setHasTexture s false = (s, some "Model must have textures or intensity!")) ∧
    (s.has_texture = false →
      setHasIntensity s false = (s, some "Model must have textures or intensity!")) ∧
    (∀ v, flagsLegal (setHasTexture s v).1 ∧ flagsLegal (setHasIntensity s v).1) := by
  refine ⟨?_, ?_, ?_⟩
  · intro hi
    simp [setHasTexture, hi]
  · intro ht
    simp [setHasIntensity, ht]
  · intro v
    constructor
    · by_cases h : s.has_intensity = false ∧ v = false
      · simpa [setHasTexture, h.1, h.2] using hinv
      · have hv : v = true ∨ s.has_intensity = true := by
          rcases not_and_or.mp h with h1 | h2
          · right
            revert h1
            cases s.has_intensity <;> simp
          · left
            revert h2
            cases v <;> simp
        rcases hv with hv | hv
        · simp [setHasTexture, flagsLegal, hv]
        · simp [setHasTexture, flagsLegal, hv]
    · by_cases h : s.has_texture = false ∧ v = false
      · simpa [setHasIntensity, h.1, h.2] using hinv
      · have hv : v = true ∨ s.has_texture = true := by
          rcases not_and_or.mp h with h1 | h2
          · right
            revert h1
            cases s.has_texture <;> simp
          · left
            revert h2
            cases v <;> simp
        rcases hv with hv | hv
        · simp [setHasIntensity, flagsLegal, hv]
        · simp [setHasIntensity, flagsLegal, hv]

/-- C4 witness: on the concrete state with intensity off, assigning
`has_texture = False` returns the error and the unchanged state. -/
theorem flag_setters_spec_witness :
    setHasTexture probeModelNoIntensity false =
      (probeModelNoIntensity, some "Model must have textures or intensity!") :=
  (flag_setters_spec probeModelNoIntensity (Or.inl rfl)).1 rfl

/-- C3.  `make()` never mutates the input snapshot (`input_image`,
`preproc_img`, `region_masks`, both peak tables are untouched in the
final state), and running `make()` twice on an unmodified instance
yields identical output arrays (`out_image`, `preview_intensity`,
preview masks). -/
theorem make_idempotent_and_pure (s : Model3D) :
    ((make s).1.input_image = s.input_image ∧
     (make s).1.preproc_img = s.preproc_img ∧
     (make s).1.region_masks = s.region_masks ∧
     (make s).1.peaks_clusters = s.peaks_clusters ∧
     (make s).1.peaks_stars = s.peaks_stars) ∧
    ((make (make s).1).1.out_image = (make s).1.out_image ∧
     (make (make s).1).1.preview_intensity = (make s).1.preview_intensity ∧
     (make (make s).1).1.preview_masks = (make s).1.preview_masks) := by
  refine ⟨⟨rfl, rfl, rfl, rfl, rfl⟩, ?_⟩
  have h2 : makeCore (readsOf (make s).1) (make s).1.texture_layer =
      makeCore (readsOf s) s.texture_layer := by
    rw [show readsOf (make s).1 = readsOf s from rfl]
    cases hT : s.has_texture with
    | true => exact makeCore_tex_irrel _ _ _ hT
    | false =>
      have htl : (makeCore (readsOf s) s.texture_layer).texture_layer = none :=
        makeCore_no_tex _ _ hT
      have : (make s).1.texture_layer = s.texture_layer := by
        show writeSlot (makeCore (readsOf s) s.texture_layer).texture_layer
          s.texture_layer = s.texture_layer
        rw [htl]
        rfl
      rw [this]
  have key : (make (make s).1).1 =
      applyMakeRes (make s).1 (makeCore (readsOf s) s.texture_layer) := by
    show applyMakeRes (make s).1
      (makeCore (readsOf (make s).1) (make s).1.texture_layer) = _
    rw [h2]
  refine ⟨?_, ?_, ?_⟩ <;> rw [key]
  · exact writeSlot_idem _ s.out_image
  · exact writeSlot_idem _ s.preview_intensity
  · exact writeSlot_idem _ s.preview_masks

/-- C9.  Result access is gated on a completed `make()`: a freshly
constructed instance has no results; while no results are stored, the
`preview_intensity` and `out_image` properties and the
`get_preview_mask`, `get_final_clusters` and `get_final_stars` methods
all raise the `ValueError` "Run make() first"; and a `make()` run that
raises (on a legally configured instance) stores no partial result, so
the gate still holds afterwards. -/
theorem results_gated_on_make :
    (∀ image, resultsNone (initModel image)) ∧
    (∀ s : Model3D, resultsNone s →
      previewIntensity s = .error "Run make() first" ∧
      outImage s = .error "Run make() first" ∧
      (∀ key, getPreviewMask s key = .error "Run make() first") ∧
      getFinalClusters s = .error "Run make() first" ∧
      getFinalStars s = .error "Run make() first") ∧
    (∀ s : Model3D, flagsLegal s → resultsNone s →
      ∀ e, (make s).2 = some e → resultsNone (make s).1) := by
  refine ⟨?_, ?_, ?_⟩
  · intro image
    exact ⟨rfl, rfl, rfl, rfl, rfl⟩
  · intro s hs
    obtain ⟨h1, h2, h3, h4, h5⟩ := hs
    refine ⟨?_, ?_, ?_, ?_, ?_⟩
    · simp [previewIntensity, h1]
    · simp [outImage, h2]
    · intro key
      simp [getPreviewMask, h4]
    · simp [getFinalClusters, h5]
    · simp [getFinalStars, h5]
  · intro s hleg hs e he
    have hcore : makeCore (readsOf s) s.texture_layer = errRes e :=
      makeCore_err_fields _ _ e hleg he
    show resultsNone (applyMakeRes s (makeCore (readsOf s) s.texture_layer))
    rw [hcore]
    obtain ⟨h1, h2, h3, h4, h5⟩ := hs
    exact ⟨h1, h2, h3, h4, h5⟩

theorem zipWith_or_assoc (a b c : List Bool) :
    List.zipWith or (List.zipWith or a b) c =
      List.zipWith or a (List.zipWith or b c) := by
  induction a generalizing b c with
  | nil => simp
  | cons x xs ih =>
    cases b with
    | nil => simp
    | cons y ys =>
      cases c with
      | nil => simp
      | cons z zs => simp [ih, Bool.or_assoc]

theorem orMask_comm (a b : Mask) : orMask a b = orMask b a :=
  List.zipWith_comm_of_comm _
    (fun r1 r2 => List.zipWith_comm_of_comm _ Bool.or_comm r1 r2) a b

theorem orMask_assoc (a b c : Mask) :
    orMask (orMask a b) c = orMask a (orMask b c) := by
  unfold orMask
  induction a generalizing b c with
  | nil => simp
  | cons x xs ih =>
    cases b with
    | nil => simp
    | cons y ys =>
      cases c with
      | nil => simp
      | cons z zs => simp [ih, zipWith_or_assoc]

theorem getD_zipWith_or (r1 r2 : List Bool) (h : r1.length = r2.length)
    (j : Nat) :
    (List.zipWith or r1 r2).getD j false = (r1.getD j false || r2.getD j false) := by
  induction r1 generalizing r2 j with
  | nil =>
    cases r2 with
    | nil => simp
    | cons y ys => simp at h
  | cons x xs ih =>
    cases r2 with
    | nil => simp at h
    | cons y ys =>
      cases j with
      | zero => simp
      | succ n => simpa using ih ys (by simpa using h) n

theorem mcell_orMask (a b : Mask) (h : sameShape a b) (i j : Nat) :
    mcell (orMask a b) i j = (mcell a i j || mcell b i j) := by
  unfold mcell orMask
  induction a generalizing b i with
  | nil =>
    cases b with
    | nil => simp
    | cons r2 rs2 => simp [sameShape] at h
  | cons r rs ih =>
    cases b with
    | nil => simp [sameShape] at h
    | cons r2 rs2 =>
      have h0 : r.length = r2.length ∧ rs.map List.length = rs2.map List.length := by
        simpa [sameShape] using h
      cases i with
      | zero => simpa using getD_zipWith_or r r2 h0.1 j
      | succ n => simpa using ih rs2 h0.2 n

theorem foldl_min_le (xs : List Nat) :
    ∀ (a : Nat), ∀ x ∈ a :: xs, xs.foldl Nat.min a ≤ x := by
  induction xs with
  | nil =>
    intro a x hx
    rcases List.mem_cons.mp hx with rfl | hx
    · exact Nat.le_refl _
    · cases hx
  | cons y ys ih =>
    intro a x hx
    rw [List.foldl_cons]
    have hmin : ys.foldl Nat.min (Nat.min a y) ≤ Nat.min a y :=
      ih (Nat.min a y) (Nat.min a y) (List.mem_cons_self _ _)
    rcases List.mem_cons.mp hx with hxa | hx
    · rw [hxa]
      exact Nat.le_trans hmin (Nat.min_le_left a y)
    · rcases List.mem_cons.mp hx with hxy | hx
      · rw [hxy]
        exact Nat.le_trans hmin (Nat.min_le_right a y)
      · exact ih (Nat.min a y) x (List.mem_cons_of_mem _ hx)

theorem foldl_min_mem (xs : List Nat) :
    ∀ (a : Nat), xs.foldl Nat.min a ∈ a :: xs := by
  induction xs with
  | nil => simp
  | cons y ys ih =>
    intro a
    rw [List.foldl_cons]
    rcases List.mem_cons.mp (ih (Nat.min a y)) with h | h
    · rcases min_choice a y with hm | hm
      · have h2 : List.foldl Nat.min (Nat.min a y) ys = a := h.trans hm
        rw [h2]
        exact List.mem_cons_self _ _
      · have h2 : List.foldl Nat.min (Nat.min a y) ys = y := h.trans hm
        rw [h2]
        exact List.mem_cons_of_mem _ (List.mem_cons_self _ _)
    · exact List.mem_cons_of_mem _ (List.mem_cons_of_mem _ h)

theorem foldl_max_ge (xs : List Nat) :
    ∀ (a : Nat), ∀ x ∈ a :: xs, x ≤ xs.foldl Nat.max a := by
  induction xs with
  | nil =>
    intro a x hx
    rcases List.mem_cons.mp hx with rfl | hx
    · exact Nat.le_refl _
    · cases hx
  | cons y ys ih =>
    intro a x hx
    rw [List.foldl_cons]
    have hmax : Nat.max a y ≤ ys.foldl Nat.max (Nat.max a y) :=
      ih (Nat.max a y) (Nat.max a y) (List.mem_cons_self _ _)
    rcases List.mem_cons.mp hx with hxa | hx
    · rw [hxa]
      exact Nat.le_trans (Nat.le_max_left a y) hmax
    · rcases List.mem_cons.mp hx with hxy | hx
      · rw [hxy]
        exact Nat.le_trans (Nat.le_max_right a y) hmax
      · exact ih (Nat.max a y) x (List.mem_cons_of_mem _ hx)

theorem foldl_max_mem (xs : List Nat) :
    ∀ (a : Nat), xs.foldl Nat.max a ∈ a :: xs := by
  induction xs with
  | nil => simp
  | cons y ys ih =>
    intro a
    rw [List.foldl_cons]
    rcases List.mem_cons.mp (ih (Nat.max a y)) with h | h
    · rcases max_choice a y with hm | hm
      · have h2 : List.foldl Nat.max (Nat.max a y) ys = a := h.trans hm
        rw [h2]
        exact List.mem_cons_self _ _
      · have h2 : List.foldl Nat.max (Nat.max a y) ys = y := h.trans hm
        rw [h2]
        exact List.mem_cons_of_mem _ (List.mem_cons_self _ _)
    · exact List.mem_cons_of_mem _ (List.mem_cons_of_mem _ h)

theorem natMin_spec (l : List Nat) (m : Nat) (h : natMin l = some m) :
    m ∈ l ∧ ∀ x ∈ l, m ≤ x := by
  cases l with
  | nil => simp [natMin] at h
  | cons x xs =>
    obtain rfl : xs.foldl Nat.min x = m := by simpa [natMin] using h
    exact ⟨foldl_min_mem xs x, foldl_min_le xs x⟩

theorem natMax_spec (l : List Nat) (m : Nat) (h : natMax l = some m) :
    m ∈ l ∧ ∀ x ∈ l, x ≤ m := by
  cases l with
  | nil => simp [natMax] at h
  | cons x xs =>
    obtain rfl : xs.foldl Nat.max x = m := by simpa [natMax] using h
    exact ⟨foldl_max_mem xs x, foldl_max_ge xs x⟩

theorem mem_exceedCells (d : Img) (t : ℚ) (i j : Nat) :
    (i, j) ∈ exceedCells d t ↔
      ∃ row, d[i]? = some row ∧ ∃ v, row[j]? = some v ∧ t < v := by
  unfold exceedCells
  simp only [List.mem_flatMap, List.mem_filterMap]
  constructor
  · rintro ⟨⟨i1, row⟩, hir, ⟨j1, v⟩, hjv, hcond⟩
    by_cases hc : v > t
    · rw [if_pos hc] at hcond
      obtain ⟨rfl, rfl⟩ := Prod.mk.inj (Option.some.inj hcond)
      exact ⟨row, List.mk_mem_enum_iff_getElem?.mp hir, v,
             List.mk_mem_enum_iff_getElem?.mp hjv, hc⟩
    · rw [if_neg hc] at hcond
      cases hcond
  · rintro ⟨row, hrow, v, hv, htv⟩
    exact ⟨(i, row), List.mk_mem_enum_iff_getElem?.mpr hrow,
           (j, v), List.mk_mem_enum_iff_getElem?.mpr hv, by rw [if_pos htv]⟩

set_option maxRecDepth 40000 in
/-- C5.  `crop_below_threshold` returns the minimal bounding box of the
pixels strictly exceeding the threshold: every exceeding pixel lies in
the returned box and all four box edges are attained by exceeding
pixels; it raises (`none`) exactly when no pixel exceeds the threshold;
`exceedCells` lists exactly the exceeding pixels; and the 100x100
scenario grid with a 10x10 block of 100s at rows 40-49, columns 40-49
crops to rows [40,50) and columns [40,50) for threshold 10. -/
theorem crop_below_threshold_spec (d : Img) (t : ℚ) :
    (crop_below_threshold d t = none ↔ exceedCells d t = []) ∧
    (∀ y0 y1 x0 x1, crop_below_threshold d t = some ((y0, y1), (x0, x1)) →
      (∀ p ∈ exceedCells d t, y0 ≤ p.1 ∧ p.1 < y1 ∧ x0 ≤ p.2 ∧ p.2 < x1) ∧
      (∃ p ∈ exceedCells d t, p.1 = y0) ∧
      (∃ p ∈ exceedCells d t, p.1 = y1 - 1) ∧
      (∃ p ∈ exceedCells d t, p.2 = x0) ∧
      (∃ p ∈ exceedCells d t, p.2 = x1 - 1)) ∧
    (∀ i j, (i, j) ∈ exceedCells d t ↔
      ∃ row, d[i]? = some row ∧ ∃ v, row[j]? = some v ∧ t < v) ∧
    crop_below_threshold cropScenarioGrid 10 = some ((40, 50), (40, 50)) := by
  refine ⟨?_, ?_, fun i j => mem_exceedCells d t i j, by decide⟩
  · cases hc : exceedCells d t with
    | nil => simp [crop_below_threshold, hc, natMin, natMax]
    | cons p ps => simp [crop_below_threshold, hc, natMin, natMax]
  · intro y0 y1 x0 x1 h
    cases hc : exceedCells d t with
    | nil => simp [crop_below_threshold, hc, natMin, natMax] at h
    | cons p ps =>
      simp only [crop_below_threshold, hc, List.map_cons, natMin, natMax] at h
      have h' := Option.some.inj h
      obtain ⟨h1, h2⟩ := Prod.mk.inj h'
      obtain ⟨hy0, hy1⟩ := Prod.mk.inj h1
      obtain ⟨hx0, hx1⟩ := Prod.mk.inj h2
      refine ⟨?_, ?_, ?_, ?_, ?_⟩
      · intro q hq
        have hqf : q.1 ∈ p.1 :: ps.map Prod.fst := by
          simpa using List.mem_map_of_mem Prod.fst hq
        have hqs : q.2 ∈ p.2 :: ps.map Prod.snd := by
          simpa using List.mem_map_of_mem Prod.snd hq
        refine ⟨?_, ?_, ?_, ?_⟩
        · exact hy0 ▸ foldl_min_le (ps.map Prod.fst) p.1 q.1 hqf
        · exact hy1 ▸ Nat.lt_succ_of_le (foldl_max_ge (ps.map Prod.fst) p.1 q.1 hqf)
        · exact hx0 ▸ foldl_min_le (ps.map Prod.snd) p.2 q.2 hqs
        · exact hx1 ▸ Nat.lt_succ_of_le (foldl_max_ge (ps.map Prod.snd) p.2 q.2 hqs)
      · have hm : y0 ∈ (p :: ps).map Prod.fst := by
          rw [List.map_cons]
          exact hy0 ▸ foldl_min_mem (ps.map Prod.fst) p.1
        obtain ⟨q, hq, hq1⟩ := List.mem_map.mp hm
        exact ⟨q, hq, hq1⟩
      · have hm : y1 - 1 ∈ (p :: ps).map Prod.fst := by
          rw [List.map_cons, ← hy1, Nat.add_sub_cancel]
          exact foldl_max_mem (ps.map Prod.fst) p.1
        obtain ⟨q, hq, hq1⟩ := List.mem_map.mp hm
        exact ⟨q, hq, hq1⟩
      · have hm : x0 ∈ (p :: ps).map Prod.snd := by
          rw [List.map_cons]
          exact hx0 ▸ foldl_min_mem (ps.map Prod.snd) p.2
        obtain ⟨q, hq, hq1⟩ := List.mem_map.mp hm
        exact ⟨q, hq, hq1⟩
      · have hm : x1 - 1 ∈ (p :: ps).map Prod.snd := by
          rw [List.map_cons, ← hx1, Nat.add_sub_cancel]
          exact foldl_max_mem (ps.map Prod.snd) p.2
        obtain ⟨q, hq, hq1⟩ := List.mem_map.mp hm
        exact ⟨q, hq, hq1⟩

/-- C5 witness: the box returned on the scenario grid bounds all its
exceeding pixels. -/
theorem crop_below_threshold_spec_witness :
    ∀ p ∈ exceedCells cropScenarioGrid 10,
      40 ≤ p.1 ∧ p.1 < 50 ∧ 40 ≤ p.2 ∧ p.2 < 50 :=
  ((crop_below_threshold_spec cropScenarioGrid 10).2.1 40 50 40 50
    (crop_below_threshold_spec cropScenarioGrid 10).2.2.2).1

/-- C6.  `_crop_peaks` drops rows, never clamps: every peak outside the
crop box `[ix1, ix2) x [iy1, iy2)` fails the selection predicate (so its
row is dropped); every surviving row is a selected input row with its
coordinates shifted by the crop origin `(ix1, iy1)`; and every surviving
peak's coordinates lie within the cropped image bounds
`[0, ix2 - ix1) x [0, iy2 - iy1)`. -/
theorem crop_peaks_spec (peaks : List Peak) (ix1 ix2 iy1 iy2 : ℤ) :
    (∀ p ∈ peaks,
      (p.xcen < (ix1 : ℚ) ∨ (ix2 : ℚ) ≤ p.xcen ∨
       p.ycen < (iy1 : ℚ) ∨ (iy2 : ℚ) ≤ p.ycen) →
      cropPeakKeep ix1 ix2 iy1 iy2 p = false) ∧
    (∀ q ∈ crop_peaks peaks ix1 ix2 iy1 iy2,
      ∃ p ∈ peaks, cropPeakKeep ix1 ix2 iy1 iy2 p = true ∧
        q = { p with xcen := p.xcen - (ix1 : ℚ), ycen := p.ycen - (iy1 : ℚ) }) ∧
    (∀ q ∈ crop_peaks peaks ix1 ix2 iy1 iy2,
      0 ≤ q.xcen ∧ q.xcen < (ix2 : ℚ) - (ix1 : ℚ) ∧
      0 ≤ q.ycen ∧ q.ycen < (iy2 : ℚ) - (iy1 : ℚ)) := by
  refine ⟨?_, ?_, ?_⟩
  · intro p _ hout
    rcases Bool.eq_false_or_eq_true (cropPeakKeep ix1 ix2 iy1 iy2 p) with hb | hb
    · exfalso
      simp only [cropPeakKeep, Bool.and_eq_true, decide_eq_true_eq] at hb
      obtain ⟨⟨⟨hA, hB⟩, hC⟩, hD⟩ := hb
      rcases hout with h | h | h | h <;> linarith
    · exact hb
  · intro q hq
    obtain ⟨p, hpf, rfl⟩ := List.mem_map.mp hq
    obtain ⟨hpm, hkeep⟩ := List.mem_filter.mp hpf
    exact ⟨p, hpm, hkeep, rfl⟩
  · intro q hq
    obtain ⟨p, hpf, rfl⟩ := List.mem_map.mp hq
    obtain ⟨hpm, hkeep⟩ := List.mem_filter.mp hpf
    simp only [cropPeakKeep, Bool.and_eq_true, decide_eq_true_eq] at hkeep
    obtain ⟨⟨⟨hA, hB⟩, hC⟩, hD⟩ := hkeep
    dsimp only
    refine ⟨by linarith, by linarith, by linarith, by linarith⟩

/-- C6 witness: the single peak (5, 5) survives the crop box
(2, 50) x (2, 50) as (3, 3) and lies within the cropped bounds. -/
theorem crop_peaks_spec_witness :
    0 ≤ (Peak.mk 3 3 1).xcen ∧ (Peak.mk 3 3 1).xcen < ((50 : ℤ) : ℚ) - ((2 : ℤ) : ℚ) ∧
    0 ≤ (Peak.mk 3 3 1).ycen ∧ (Peak.mk 3 3 1).ycen < ((50 : ℤ) : ℚ) - ((2 : ℤ) : ℚ) :=
  (crop_peaks_spec [Peak.mk 5 5 1] 2 50 2 50).2.2 (Peak.mk 3 3 1) (by decide)

theorem getD_map_lt (g : ℚ → ℚ) (row : List ℚ) (j : Nat) (hj : j < row.length) :
    (row.map g).getD j 0 = g (row.getD j 0) := by
  rw [List.getD_eq_getElem?_getD, List.getD_eq_getElem?_getD, List.getElem?_map,
      List.getElem?_eq_getElem hj]
  rfl

theorem cell_map2 (g : ℚ → ℚ) (img : Img) (i j : Nat) (hi : i < img.length)
    (hj : j < (img.getD i []).length) :
    cell (img.map (fun row => row.map g)) i j = g (cell img i j) := by
  unfold cell
  have hrow : img.getD i [] = img[i] := by
    rw [List.getD_eq_getElem?_getD, List.getElem?_eq_getElem hi]
    rfl
  rw [List.getD_eq_getElem?_getD (img.map (fun row => row.map g)) i [],
      List.getElem?_map, List.getElem?_eq_getElem hi]
  simp only [Option.map_some', Option.getD_some]
  rw [hrow]
  exact getD_map_lt g img[i] j (hrow ▸ hj)

theorem cell_rangeGrid (f : Nat → Nat → ℚ) (ny nx i j : Nat) (hi : i < ny)
    (hj : j < nx) :
    cell ((List.range ny).map (fun a => (List.range nx).map (f a))) i j = f i j := by
  unfold cell
  rw [List.getD_eq_getElem?_getD
        ((List.range ny).map (fun a => (List.range nx).map (f a))) i [],
      List.getElem?_map, List.getElem?_range hi]
  simp only [Option.map_some', Option.getD_some]
  rw [List.getD_eq_getElem?_getD, List.getElem?_map, List.getElem?_range hj]
  rfl

theorem snapoffCell_lt (h m : ℚ) (hm : m < 1) : snapoffCell h m = h := by
  unfold snapoffCell
  rw [if_pos hm]
  norm_num

theorem snapoffCell_gt (h m : ℚ) (hm : 1 < m) : snapoffCell h m = 0 := by
  unfold snapoffCell
  rw [if_neg (by linarith : ¬ m < 1)]
  simp only [gt_iff_lt, if_pos hm]
  norm_num

/-- C7.  `make_base` with `snapoff=False` returns a constant array of the
given height with the image's shape (both as a whole and cellwise); with
`snapoff=True` every cell whose maximum-filtered value is below 1 is
mapped to the height, and every cell whose filtered value is above 1 is
mapped to 0. -/
theorem make_base_spec (img : Img) (dist : Nat) (h : ℚ) :
    (make_base img dist h false = img.map (fun row => row.map (fun _ => h))) ∧
    (∀ i j, i < img.length → j < (img.getD i []).length →
      cell (make_base img dist h false) i j = h) ∧
    (∀ i j, i < (shape2 img).1 → j < (shape2 img).2 →
      (maxFilterAt img dist i j < 1 →
        cell (make_base img dist h true) i j = h) ∧
      (1 < maxFilterAt img dist i j →
        cell (make_base img dist h true) i j = 0)) := by
  have hform : make_base img dist h true =
      (List.range (shape2 img).1).map (fun i =>
        (List.range (shape2 img).2).map
          (fun j => snapoffCell h (maxFilterAt img dist i j))) := by
    simp [make_base, maxFilter, List.map_map, Function.comp]
  refine ⟨rfl, ?_, ?_⟩
  · intro i j hi hj
    exact cell_map2 (fun _ => h) img i j hi hj
  · intro i j hi hj
    constructor
    · intro hlt
      rw [hform, cell_rangeGrid (fun a b => snapoffCell h (maxFilterAt img dist a b))
        _ _ i j hi hj]
      exact snapoffCell_lt h _ hlt
    · intro hgt
      rw [hform, cell_rangeGrid (fun a b => snapoffCell h (maxFilterAt img dist a b))
        _ _ i j hi hj]
      exact snapoffCell_gt h _ hgt

/-- C7 witness: on the concrete one-pixel image `[[2]]` the filtered
value 2 exceeds 1, so the snap-off base is 0 there; the flat base is the
constant 20. -/
theorem make_base_spec_witness :
    cell (make_base [[2]] 1 20 true) 0 0 = 0 ∧
    cell (make_base [[2]] 1 20 false) 0 0 = 20 := by
  constructor
  · exact ((make_base_spec [[2]] 1 20).2.2 0 0 (by decide) (by decide)).2 (by decide)
  · exact (make_base_spec [[2]] 1 20).2.1 0 0 (by decide) (by decide)

/-- C10.  `scale_top` only rescales the cells strictly above the
computed top threshold (the percentile of the masked region when a mask
is given, else mean plus modelled standard deviation): every cell at or
below the threshold keeps its exact input value, and a cell whose output
differs from its input must lie strictly above the threshold.  The input
array itself is untouched (`deepcopy` in the source; a fresh image by
construction here). -/
theorem scale_top_spec (img : Img) (mask : Option Mask) (percent factor : ℚ) :
    ∀ i j, i < img.length → j < (img.getD i []).length →
      (cell img i j ≤ scaleTopThreshold img mask percent →
        cell (scale_top img mask percent factor) i j = cell img i j) ∧
      (cell (scale_top img mask percent factor) i j ≠ cell img i j →
        scaleTopThreshold img mask percent < cell img i j) := by
  intro i j hi hj
  have hc : cell (scale_top img mask percent factor) i j =
      (if cell img i j > scaleTopThreshold img mask percent
       then scaleTopThreshold img mask percent +
         (cell img i j - scaleTopThreshold img mask percent) * factor / imgMaxQ img
       else cell img i j) :=
    cell_map2 _ img i j hi hj
  constructor
  · intro hle
    rw [hc, if_neg (not_lt.mpr hle)]
  · intro hne
    by_contra hgt
    push_neg at hgt
    exact hne (by rw [hc, if_neg (not_lt.mpr hgt)])

/-- C10 witness: on `[[1, 3]]` with no mask the threshold is
mean + std = 3, so the cell holding 1 is returned unchanged. -/
theorem scale_top_spec_witness :
    cell (scale_top [[1, 3]] none 30 10) 0 0 = cell [[1, 3]] 0 0 :=
  ((scale_top_spec [[1, 3]] none 30 10) 0 0 (by decide) (by decide)).1 (by decide)

theorem sameShape_length {α : Type} (a b : List (List α)) (h : sameShape a b) :
    b.length = a.length := by
  have h2 := congrArg List.length h
  simpa using h2.symm

theorem sameShape_row_len {α : Type} (a b : List (List α)) (h : sameShape a b)
    (i : Nat) (hi : i < a.length) :
    (b.getD i []).length = (a.getD i []).length := by
  have h1 : (a.map List.length)[i]? = (b.map List.length)[i]? := by rw [h]
  rw [List.getElem?_map, List.getElem?_map] at h1
  have hib : i < b.length := sameShape_length a b h ▸ hi
  rw [List.getElem?_eq_getElem hi, List.getElem?_eq_getElem hib] at h1
  have h2 : a[i].length = b[i].length := by simpa using h1
  have hga : a.getD i [] = a[i] := by
    rw [List.getD_eq_getElem?_getD, List.getElem?_eq_getElem hi]
    rfl
  have hgb : b.getD i [] = b[i] := by
    rw [List.getD_eq_getElem?_getD, List.getElem?_eq_getElem hib]
    rfl
  rw [hga, hgb, h2]

theorem getD_zipWith_q (f : ℚ → ℚ → ℚ) (a b : List ℚ) (i : Nat)
    (ha : i < a.length) (hb : i < b.length) :
    (List.zipWith f a b).getD i 0 = f (a.getD i 0) (b.getD i 0) := by
  induction a generalizing b i with
  | nil => simp at ha
  | cons x xs ih =>
    cases b with
    | nil => simp at hb
    | cons y ys =>
      cases i with
      | zero => simp
      | succ n => simpa using ih ys n (by simpa using ha) (by simpa using hb)

theorem cell_zipWith2 (f : ℚ → ℚ → ℚ) (a b : Img) (i j : Nat)
    (hia : i < a.length) (hib : i < b.length)
    (hja : j < (a.getD i []).length) (hjb : j < (b.getD i []).length) :
    cell (List.zipWith (List.zipWith f) a b) i j = f (cell a i j) (cell b i j) := by
  unfold cell
  induction a generalizing b i with
  | nil => simp at hia
  | cons r rs ih =>
    cases b with
    | nil => simp at hib
    | cons r2 rs2 =>
      cases i with
      | zero =>
        simpa using getD_zipWith_q f r r2 j (by simpa using hja) (by simpa using hjb)
      | succ n =>
        simpa using ih rs2 n (by simpa using hia) (by simpa using hib)
          (by simpa using hja) (by simpa using hjb)

/-- C2 counterexample: the spec's merge rule fails on the code.  For
`a = [[1, 2]]`, `b = [[2, 0]]` cell (0,0) overlaps (both non-zero), the
minimum non-zero value of `a` (1) is strictly lower than that of `b`
(2), so the rule demands that the cell keep `a`'s value 1 — but
`add_clusters` compares `a[b != 0].min() = 1` with `b[b != 0].min() = 2`
and, finding the former lower, overwrites all of `b`'s support with
`b`'s values, returning `[[2, 2]]`. -/
theorem add_clusters_spec_rule_fails : ¬ addClustersSpecRule [[1, 2]] [[2, 0]] := by
  intro hrule
  have h := hrule [[2, 2]] (by decide) 0 0 (by decide) (by decide) (by decide)
    (by decide) 1 2 (by decide) (by decide)
  exact absurd (h.1 (by decide)) (by decide)

set_option maxRecDepth 20000 in
/-- C2 (amended).  What `add_clusters(a, b)` actually computes: with
`mask = b != 0` non-empty, it compares `min(a[mask])` (which ranges over
`a`'s values on `b`'s support, zeros of `a` included) with
`min(b[mask])`; if the former is strictly lower, every cell of `b`'s
support takes `b`'s value, otherwise only the zero cells of `a` are
filled from `b`.  In the literal scenario — radius-10 height-5 craters
centred at (50,50) and (55,50) — the first comparison wins (the second
crater sticks out of the first, so `min(a[mask]) = 0 < min(b[mask])`),
and every overlapping non-zero cell takes the SECOND marker's values. -/
theorem add_clusters_code_rule :
    (∀ a b : Img, sameShape a b →
      ∀ m1 m2, ratMinL (maskedCells a b) = some m1 →
               ratMinL (maskedCells b b) = some m2 →
      ∃ r, add_clusters a b = some r ∧ r.length = a.length ∧
        ∀ i j, i < a.length → j < (a.getD i []).length →
          cell r i j = if m1 < m2
            then (if cell b i j ≠ 0 then cell b i j else cell a i j)
            else (if cell a i j = 0 then cell b i j else cell a i j)) ∧
    (add_clusters craterA craterB = some craterMerged ∧
      ∀ rt ∈ (craterA.zip craterB).zip craterMerged,
        ∀ t ∈ (rt.1.1.zip rt.1.2).zip rt.2,
          t.1.1 ≠ 0 → t.1.2 ≠ 0 → t.2 = t.1.2) := by
  constructor
  · intro a b hsh m1 m2 hm1 hm2
    have hlb : b.length = a.length := sameShape_length a b hsh
    have hadd : add_clusters a b = some (if m1 < m2
        then List.zipWith (List.zipWith (fun x y => if y ≠ 0 then y else x)) a b
        else List.zipWith (List.zipWith (fun x y => if x = 0 then y else x)) a b) := by
      unfold add_clusters
      rw [hm1, hm2]
    refine ⟨_, hadd, ?_, ?_⟩
    · by_cases hc : m1 < m2 <;> simp [hc, List.length_zipWith, hlb]
    · intro i j hi hj
      have hib : i < b.length := hlb ▸ hi
      have hjb : j < (b.getD i []).length := by
        rw [sameShape_row_len a b hsh i hi]
        exact hj
      by_cases hc : m1 < m2
      · rw [if_pos hc, if_pos hc]
        exact cell_zipWith2 _ a b i j hi hib hj hjb
      · rw [if_neg hc, if_neg hc]
        exact cell_zipWith2 _ a b i j hi hib hj hjb
  · exact ⟨by decide, by decide⟩

/-- C2 amended-claim witness: the general rule applied to the concrete
pair `[[1, 2]]`, `[[2, 0]]`. -/
theorem add_clusters_code_rule_witness :
    ∃ r, add_clusters [[1, 2]] [[2, 0]] = some r ∧ r.length = 1 ∧
      ∀ i j, i < ([[1, 2]] : Img).length → j < (([[1, 2]] : Img).getD i []).length →
        cell r i j = if (1 : ℚ) < 2
          then (if cell [[2, 0]] i j ≠ 0 then cell [[2, 0]] i j
                else cell [[1, 2]] i j)
          else (if cell [[1, 2]] i j = 0 then cell [[2, 0]] i j
                else cell [[1, 2]] i j) :=
  add_clusters_code_rule.1 [[1, 2]] [[2, 0]] (by decide) 1 2 (by decide) (by decide)

/-- C8.  `combine_masks` laws: the empty list yields `None`; a singleton
yields the mask itself unchanged; two masks yield their OR-reduction,
which is the pixelwise OR (for same-shape masks) and is commutative and
associative in the list order. -/
theorem combine_masks_laws :
    (combineMasks [] = none) ∧
    (∀ m, combineMasks [m] = some m) ∧
    (∀ a b, combineMasks [a, b] = some (orMask a b)) ∧
    (∀ a b, combineMasks [a, b] = combineMasks [b, a]) ∧
    (∀ a b c, combineMasks [a, b, c] = some (orMask a (orMask b c))) ∧
    (∀ a b, sameShape a b → ∀ i j,
      mcell (orMask a b) i j = (mcell a i j || mcell b i j)) := by
  refine ⟨rfl, fun m => rfl, fun a b => rfl, ?_, ?_, mcell_orMask⟩
  · intro a b
    show some (orMask a b) = some (orMask b a)
    rw [orMask_comm]
  · intro a b c
    show some (orMask (orMask a b) c) = _
    rw [orMask_assoc]

/-- C8 witness: the pixelwise-OR component applied to two concrete
same-shape masks. -/
theorem combine_masks_laws_witness :
    mcell (orMask [[true, false]] [[false, false]]) 0 0 =
      (mcell [[true, false]] 0 0 || mcell [[false, false]] 0 0) :=
  combine_masks_laws.2.2.2.2.2 [[true, false]] [[false, false]] (by decide) 0 0

set_option maxRecDepth 100000 in
/-- C9 witness: the concrete 2x2 zero-image instance fails its `make()`
run at the crop step and still gates every getter afterwards. -/
theorem results_gated_on_make_witness :
    resultsNone (make probeModel).1 ∧
    getFinalClusters (make probeModel).1 = .error "Run make() first" := by
  have h1 : resultsNone (make probeModel).1 :=
    results_gated_on_make.2.2 probeModel (Or.inl rfl) (by decide)
      PipeErr.emptyCrop (by decide)
  exact ⟨h1, (results_gated_on_make.2.1 (make probeModel).1 h1).2.2.2.1⟩

end Astro3D
